import Mathlib

/-!
Shallow embedding of the MirrorMate per-frame hand pipeline.

The Python sources are embedded as follows: floating-point values become
exact real numbers (every IEEE double is a rational, hence a real);
`math.sqrt`, `math.acos` and `math.atan2` become `Real.sqrt`,
`Real.arccos` and `Complex.arg`; Python `int(...)` becomes truncation
toward zero (`pyInt`); list indexing guarded by `try/except IndexError`
becomes `List.get?` pattern matching where a failed lookup takes the
`except` branch.  Purely rational parts of the pipeline (the servo range
maps and the wrist smoothing) are embedded over `ℚ` so they stay
executable.
-/

/-- Python `int(x)` on a numeric value: truncation toward zero. -/
def pyInt {α : Type} [LinearOrderedField α] [FloorRing α]
    [DecidableRel ((· < ·) : α → α → Prop)] (x : α) : ℤ :=
  if x < 0 then ⌈x⌉ else ⌊x⌋

theorem pyInt_intCast {α : Type} [LinearOrderedField α] [FloorRing α]
    [DecidableRel ((· < ·) : α → α → Prop)] (n : ℤ) : pyInt (n : α) = n := by
  unfold pyInt
  split <;> simp

theorem pyInt_bounds {α : Type} [LinearOrderedField α] [FloorRing α]
    [DecidableRel ((· < ·) : α → α → Prop)] {x : α} {lo hi : ℤ}
    (hl : (lo : α) ≤ x) (hh : x ≤ (hi : α)) : lo ≤ pyInt x ∧ pyInt x ≤ hi := by
  unfold pyInt
  split
  · constructor
    · have h1 : ⌈(lo : α)⌉ ≤ ⌈x⌉ := Int.ceil_le_ceil hl
      simpa using h1
    · exact Int.ceil_le.mpr hh
  · constructor
    · exact Int.le_floor.mpr hl
    · have h1 : ⌊x⌋ ≤ ⌊(hi : α)⌋ := Int.floor_le_floor hh
      simpa using h1

/-- Error of Python truncation: `int(x)` is strictly within 1 of `x`. -/
theorem abs_pyInt_sub_lt {α : Type} [LinearOrderedField α] [FloorRing α]
    [DecidableRel ((· < ·) : α → α → Prop)] (x : α) : |(pyInt x : α) - x| < 1 := by
  unfold pyInt
  split
  · rw [abs_lt]
    constructor
    · have := Int.le_ceil x
      linarith
    · have := Int.ceil_lt_add_one x
      linarith
  · rw [abs_lt]
    constructor
    · have := Int.lt_floor_add_one x
      linarith
    · have := Int.floor_le x
      linarith

/-- The `map_value` helper of `camera_to_arduino_pca9685.py`
(`(x - in_min) * (out_max - out_min) / (in_max - in_min) + out_min`). -/
def map_value {α : Type} [Field α] (x inMin inMax outMin outMax : α) : α :=
  (x - inMin) * (outMax - outMin) / (inMax - inMin) + outMin

/-- 3D points/vectors, the `(landmark.x, landmark.y, landmark.z)` tuples. -/
abbrev Vec3 := ℝ × ℝ × ℝ

/-- Componentwise difference of two 3D points, e.g. `mcp_to_pip`. -/
def sub3 (a b : Vec3) : Vec3 := (a.1 - b.1, a.2.1 - b.2.1, a.2.2 - b.2.2)

/-- Componentwise sum of a point and a vector. -/
def add3 (a b : Vec3) : Vec3 := (a.1 + b.1, a.2.1 + b.2.1, a.2.2 + b.2.2)

/-- Scaling of a 3D vector by a scalar. -/
def scale3 (c : ℝ) (v : Vec3) : Vec3 := (c * v.1, c * v.2.1, c * v.2.2)

/-- Componentwise negation, `[-d for d in hand_direction]`. -/
def neg3 (v : Vec3) : Vec3 := (-v.1, -v.2.1, -v.2.2)

/-- The inline dot products of the Python sources. -/
def dot3 (a b : Vec3) : ℝ := a.1 * b.1 + a.2.1 * b.2.1 + a.2.2 * b.2.2

/-- The inline `math.sqrt(x**2 + y**2 + z**2)` magnitudes. -/
noncomputable def mag3 (v : Vec3) : ℝ := Real.sqrt (v.1 ^ 2 + v.2.1 ^ 2 + v.2.2 ^ 2)

/-- Python `math.degrees`. -/
noncomputable def degrees (x : ℝ) : ℝ := x * 180 / Real.pi

/-- Python `math.atan2 y x`, i.e. the argument of the complex number `x + y*I`. -/
noncomputable def atan2 (y x : ℝ) : ℝ := Complex.arg ⟨x, y⟩

namespace CameraToArduinoPca

/-- Embeds `calculate_finger_angle` of `camera_to_arduino_pca9685.py`
(lines 57-102).  All five landmark indices are looked up first, mirroring
the Python attribute accesses inside the `try`; any out-of-range index
takes the `except IndexError` branch and returns the neutral 90. -/
noncomputable def calculate_finger_angle (landmarks : List Vec3)
    (palmIdx mcpIdx pipIdx dipIdx tipIdx : ℕ) : ℤ :=
  match landmarks.get? palmIdx, landmarks.get? mcpIdx, landmarks.get? pipIdx,
      landmarks.get? dipIdx, landmarks.get? tipIdx with
  | some _palm, some mcp, some pipPt, some _dip, some tip =>
    let mcp_to_pip := sub3 pipPt mcp
    let pip_to_tip := sub3 tip pipPt
    let dot_product1 := dot3 mcp_to_pip pip_to_tip
    let mcp_pip_magnitude := mag3 mcp_to_pip
    let pip_tip_magnitude := mag3 pip_to_tip
    if mcp_pip_magnitude = 0 ∨ pip_tip_magnitude = 0 then 90
    else
      let cos_angle := dot_product1 / (mcp_pip_magnitude * pip_tip_magnitude)
      let cos_clamped := max (min cos_angle 1) (-1)
      let bend_angle := degrees (Real.arccos cos_clamped)
      let servo_angle := 180 - min 180 bend_angle
      let servo_clamped := max 0 (min 180 servo_angle)
      pyInt servo_clamped
  | _, _, _, _, _ => 90

/-- The palm center of `calculate_hand_rotation` (lines 119-120): the mean of
the index/middle/ring/pinky MCP coordinates.  `getD` stands for the Python
index accesses, which the caller guards by the list length. -/
noncomputable def palm_center (lm : List Vec3) : ℝ × ℝ :=
  (((lm.getD 5 (0, 0, 0)).1 + (lm.getD 9 (0, 0, 0)).1 +
      (lm.getD 13 (0, 0, 0)).1 + (lm.getD 17 (0, 0, 0)).1) / 4,
   ((lm.getD 5 (0, 0, 0)).2.1 + (lm.getD 9 (0, 0, 0)).2.1 +
      (lm.getD 13 (0, 0, 0)).2.1 + (lm.getD 17 (0, 0, 0)).2.1) / 4)

/-- The raw rotation angle of `calculate_hand_rotation` (line 126):
`math.degrees(math.atan2(primary_vector[0], -primary_vector[1]))` where
`primary_vector` points from the wrist to the palm center. -/
noncomputable def rotation_angle (lm : List Vec3) : ℝ :=
  degrees (atan2 ((palm_center lm).1 - (lm.getD 0 (0, 0, 0)).1)
    (-((palm_center lm).2 - (lm.getD 0 (0, 0, 0)).2.1)))

/-- The mapped-and-clamped rotation (lines 130-131):
`map_value(angle, -60, 60, 0, 180)` clamped to `[0, 180]`. -/
noncomputable def rotation_mapped (lm : List Vec3) : ℝ :=
  max 0 (min 180 (map_value (rotation_angle lm) (-60) 60 0 180))

/-- Embeds `calculate_hand_rotation` (lines 108-140).  The landmark accesses
at indices 0, 5, 9, 13, 17 all succeed exactly when the list has more than
17 entries; otherwise the `except IndexError` branch returns 90.  Inside the
dead zone (line 134, `abs(normalized_angle - 90) < 5`) the value is snapped
to exactly 90. -/
noncomputable def calculate_hand_rotation (lm : List Vec3) : ℤ :=
  if 17 < lm.length then
    if |rotation_mapped lm - 90| < 5 then 90 else pyInt (rotation_mapped lm)
  else 90

/-- Line 161: `int(min(max(map_value(thumb_angle, 170, 120, 0, 180), 0), 180))`. -/
def thumb_servo (a : ℚ) : ℤ := pyInt (min (max (map_value a 170 120 0 180) 0) 180)

/-- Line 166: `int(min(max(map_value(index_angle, 180, 30, 0, 180), 0), 180))`. -/
def index_servo (a : ℚ) : ℤ := pyInt (min (max (map_value a 180 30 0 180) 0) 180)

/-- Line 171: `int(min(max(map_value(middle_angle, 180, 30, 0, 180), 0), 180))`. -/
def middle_servo (a : ℚ) : ℤ := pyInt (min (max (map_value a 180 30 0 180) 0) 180)

/-- Line 176: `int(min(max(map_value(ring_angle, 180, 20, 0, 180), 30), 180))`. -/
def ring_servo (a : ℚ) : ℤ := pyInt (min (max (map_value a 180 20 0 180) 30) 180)

/-- Line 181: `int(min(max(map_value(pinky_angle, 175, 20, 0, 180), 0), 180))`. -/
def pinky_servo (a : ℚ) : ℤ := pyInt (min (max (map_value a 175 20 0 180) 0) 180)

/-- Line 155: `int(min(max(map_value(wrist_angle, 70, 110, 0, 180), 0), 180))`. -/
def wrist_servo (a : ℚ) : ℤ := pyInt (min (max (map_value a 70 110 0 180) 0) 180)

/-- Line 228: `smoothing_factor = 0.3`, idealized as the exact rational
3/10.  The source's literal is the IEEE double `fl_point_three` (defined
below), which differs from 3/10 by about `1.1e-17`; this idealization is
used only for the coarse `[0,180]` clamp invariant, which holds under
either arithmetic — the float-faithful treatment of the smoothing values
is `wrist_smoothing_float_bounds` below. -/
def smoothing_factor : ℚ := 3 / 10

/-- Lines 229-230: one wrist smoothing update,
`int(last_wrist_angle * (1 - smoothing_factor) + wrist_servo * smoothing_factor)`,
with the products and sum taken exactly over ℚ (see `smoothing_factor` on
the idealization). -/
def smooth_step (prev raw : ℤ) : ℤ :=
  pyInt ((prev : ℚ) * (1 - smoothing_factor) + (raw : ℚ) * smoothing_factor)

/-- Lines 222-240: the wrist channel of one frame.  `last` is the persisted
`send_servo_angles.last_wrist_angle` attribute (`none` before the first
frame); the attribute is initialized to the current `wrist_servo` value if
absent, the smoothed value is stored back and sent. -/
def wrist_emit (last : Option ℤ) (ws : ℤ) : ℤ × Option ℤ :=
  let prev := last.getD ws
  let s := smooth_step prev ws
  (s, some s)

/-- The six channel commands one hand contributes in `send_servo_angles`
(lines 147-240), paired with the updated wrist smoothing state.  The channel
ids and their order match the serial writes: thumb on 3, index on 1, middle
on 2, ring on 4, pinky on 5, smoothed wrist on 6. -/
noncomputable def hand_commands (lm : List Vec3) (last : Option ℤ) :
    List (ℕ × ℤ) × Option ℤ :=
  let ws := wrist_servo ((calculate_hand_rotation lm : ℤ) : ℚ)
  let thumb := thumb_servo ((calculate_finger_angle lm 0 1 2 3 4 : ℤ) : ℚ)
  let index := index_servo ((calculate_finger_angle lm 0 5 6 7 8 : ℤ) : ℚ)
  let middle := middle_servo ((calculate_finger_angle lm 0 9 10 11 12 : ℤ) : ℚ)
  let ring := ring_servo ((calculate_finger_angle lm 0 13 14 15 16 : ℤ) : ℚ)
  let pinky := pinky_servo ((calculate_finger_angle lm 0 17 18 19 20 : ℤ) : ℚ)
  let e := wrist_emit last ws
  ([(3, thumb), (1, index), (2, middle), (4, ring), (5, pinky), (6, e.1)], e.2)

/-- Embeds `send_servo_angles` (lines 142-244) at the frame level: the early
return when `results.multi_hand_landmarks` is empty/None or the Arduino is
not connected emits no command and leaves the smoothing state untouched;
otherwise each detected hand emits its six commands in order. -/
noncomputable def send_servo_angles (hands : List (List Vec3))
    (connected : Bool) (last : Option ℤ) : List (ℕ × ℤ) × Option ℤ :=
  if hands.isEmpty ∨ connected = false then ([], last)
  else hands.foldl (fun acc lm =>
    let r := hand_commands lm acc.2
    (acc.1 ++ r.1, r.2)) ([], last)

/-- The wrist smoothing state after a run of frames whose raw wrist angles
are the given list, starting from a fresh session (no stored attribute). -/
def wrist_run (angles : List ℚ) : Option ℤ :=
  angles.foldl (fun st a => (wrist_emit st (wrist_servo a)).2) none

/-- Modelled from the spec (§4.2): the claimed per-channel range map
`out = (angle - domain_min) * (clamp_max - clamp_min) / (domain_max - domain_min) + clamp_min`,
then clamped to `[clamp_min, clamp_max]`.  Stated from the spec's words to
compare against the source's `map_value`-based channels. -/
def specChannelOut (dmin dmax cmin cmax a : ℚ) : ℚ :=
  min (max ((a - dmin) * (cmax - cmin) / (dmax - dmin) + cmin) cmin) cmax

end CameraToArduinoPca

namespace CameraToArduino

/-- Embeds `calculate_finger_angle` of `camera_to_arduino.py` (lines 43-80):
the variant using the MCP→PIP and PIP→DIP segment vectors, with the final
normalization `max(0, min(179, 90 + (angle - 90)))`. -/
noncomputable def calculate_finger_angle (landmarks : List Vec3)
    (palmIdx mcpIdx pipIdx dipIdx tipIdx : ℕ) : ℤ :=
  match landmarks.get? palmIdx, landmarks.get? mcpIdx, landmarks.get? pipIdx,
      landmarks.get? dipIdx, landmarks.get? tipIdx with
  | some _palm, some mcp, some pipPt, some dip, some _tip =>
    let mcp_to_pip := sub3 pipPt mcp
    let pip_to_dip := sub3 dip pipPt
    let dot_product := dot3 mcp_to_pip pip_to_dip
    let mcp_magnitude := mag3 mcp_to_pip
    let pip_magnitude := mag3 pip_to_dip
    if mcp_magnitude = 0 ∨ pip_magnitude = 0 then 90
    else
      let cos_angle := dot_product / (mcp_magnitude * pip_magnitude)
      let cos_clamped := max (min cos_angle 1) (-1)
      let angle := degrees (Real.arccos cos_clamped)
      let normalized_angle := max 0 (min 179 (90 + (angle - 90)))
      pyInt normalized_angle
  | _, _, _, _, _ => 90

end CameraToArduino

namespace RealHandTracking

/-- One entry of the landmark dictionaries built by `send_hand_data` of
`real_hand_tracking.py`: `{"id": ..., "name": ..., "position": [...]}`. -/
structure Joint where
  id : ℕ
  name : String
  pos : Vec3

/-- The `LANDMARK_NAMES` table (lines 26-33). -/
def LANDMARK_NAMES : List String :=
  ["WRIST",
   "THUMB_CMC", "THUMB_MCP", "THUMB_IP", "THUMB_TIP",
   "INDEX_FINGER_MCP", "INDEX_FINGER_PIP", "INDEX_FINGER_DIP", "INDEX_FINGER_TIP",
   "MIDDLE_FINGER_MCP", "MIDDLE_FINGER_PIP", "MIDDLE_FINGER_DIP", "MIDDLE_FINGER_TIP",
   "RING_FINGER_MCP", "RING_FINGER_PIP", "RING_FINGER_DIP", "RING_FINGER_TIP",
   "PINKY_MCP", "PINKY_PIP", "PINKY_DIP", "PINKY_TIP"]

/-- Lines 47-57: the canonical landmark list built from the raw positions
(`{"id": idx, "name": LANDMARK_NAMES[idx], "position": [...]}`); a frame
always carries 21 positions so the name lookup is modelled total with
default `""`. -/
def build_landmarks (ps : List Vec3) : List Joint :=
  ps.enum.map (fun p => ⟨p.1, LANDMARK_NAMES.getD p.1 "", p.2⟩)

/-- Embeds the forearm block of `send_hand_data` (lines 59-97).  The wrist
is `landmarks[0]` (an access Python only reaches on the 21-entry frames this
function receives; an empty list would raise before the block) and the
forearm is appended under the guard `len(landmarks) > 9`, i.e. exactly when
the index-9 lookup succeeds: four entries with ids 21-24 at distances
0.8, 0.6, 0.4, 0.2 along the direction opposite to wrist→middle-MCP.  When
the direction length is zero the normalization is skipped, leaving the zero
vector. -/
noncomputable def add_forearm (lms : List Joint) : List Joint :=
  match lms.get? 0, lms.get? 9 with
  | some wristJ, some mcpJ =>
    let wrist := wristJ.pos
    let mcp_middle := mcpJ.pos
    let hand_direction := sub3 mcp_middle wrist
    let length := mag3 hand_direction
    let hand_direction2 :=
      if 0 < length then
        (hand_direction.1 / length, hand_direction.2.1 / length,
          hand_direction.2.2 / length)
      else hand_direction
    let forearm_direction := neg3 hand_direction2
    lms ++
      [⟨21, "ELBOW", add3 wrist (scale3 (8 / 10) forearm_direction)⟩,
       ⟨22, "FOREARM_MID", add3 wrist (scale3 (6 / 10) forearm_direction)⟩,
       ⟨23, "FOREARM_QUARTER", add3 wrist (scale3 (4 / 10) forearm_direction)⟩,
       ⟨24, "FOREARM_THREE_QUARTER", add3 wrist (scale3 (2 / 10) forearm_direction)⟩]
  | _, _ => lms

/-- One element of the `"hands"` list of the UDP packet (lines 100-105). -/
structure HandData where
  hand_type : String
  landmarks : List Joint
  timestamp : ℝ

/-- The `multi_hand_data` UDP packet (lines 108-111). -/
structure Packet where
  hands : List HandData
  timestamp : ℝ

/-- Embeds `send_hand_data` (lines 35-115) at the frame level: the input is
the list of detected hands (handedness label and raw landmark positions) and
the frame time.  With no hands the function returns at line 38 before any
packet is built or sent — modelled as `none`; otherwise the packet holding
every hand's extended landmark list is sent. -/
noncomputable def send_hand_data (handsIn : List (String × List Vec3))
    (t : ℝ) : Option Packet :=
  if handsIn.isEmpty then none
  else some ⟨handsIn.map (fun h => ⟨h.1, add_forearm (build_landmarks h.2), t⟩), t⟩

end RealHandTracking

namespace UnityExporter

/-- One `[id, x, y, z]` landmark entry of `hand_tracker.find_positions`. -/
structure Lm where
  id : ℕ
  x : ℝ
  y : ℝ
  z : ℝ

/-- Lines 180-205 of `unity_exporter.py`: the reference points collected by
scanning the landmark list for ids 9, 5, 17 in that order (first match each,
mirroring the `for ... if ... break` loops). -/
def ref_points (lms : List Lm) : List Lm :=
  ([lms.find? (fun l => l.id == 9), lms.find? (fun l => l.id == 5),
    lms.find? (fun l => l.id == 17)]).reduceOption

/-- Lines 207-221: the averaged MCP→wrist direction `(avg_dx, avg_dy)`
(summed componentwise then divided by the count; the division is only used
under the `count > 0` guard). -/
noncomputable def avg_vec (lms : List Lm) : ℝ × ℝ :=
  let w := lms.headD ⟨0, 0, 0, 0⟩
  let pts := ref_points lms
  (((pts.map (fun p => w.x - p.x)).sum) / (pts.length : ℝ),
   ((pts.map (fun p => w.y - p.y)).sum) / (pts.length : ℝ))

/-- Line 224: `magnitude = (avg_dx**2 + avg_dy**2)**0.5`. -/
noncomputable def avg_magnitude (lms : List Lm) : ℝ :=
  Real.sqrt ((avg_vec lms).1 ^ 2 + (avg_vec lms).2 ^ 2)

/-- Lines 226-266: the four forearm entries synthesized in the
non-degenerate branch (`magnitude > 0`), with Python `int(...)` pixel
truncation on the x/y coordinates and the depth offsets
`0.1, 0.1/2, 0.1/4, 0.1*3/4` below the wrist depth. -/
noncomputable def forearm_entries (lms : List Lm) (imgW imgH : ℝ) : List Lm :=
  let w := lms.headD ⟨0, 0, 0, 0⟩
  let avg := avg_vec lms
  let magnitude := avg_magnitude lms
  let hand_orientation := |avg.2 / (if avg.1 ≠ 0 then avg.1 else 1 / 1000)|
  let forearm_length_factor : ℝ := if 1 < hand_orientation then 1 / 2 else 7 / 10
  let norm_dx := avg.1 / magnitude
  let norm_dy := avg.2 / magnitude
  let scaled_dx := norm_dx * imgW * forearm_length_factor
  let scaled_dy := norm_dy * imgH * forearm_length_factor
  let elbow_x := pyInt (w.x + scaled_dx)
  let elbow_y := pyInt (w.y + scaled_dy)
  let depth_change : ℝ := 1 / 10
  [⟨21, (elbow_x : ℝ), (elbow_y : ℝ), w.z - depth_change⟩,
   ⟨22, (pyInt ((w.x + (elbow_x : ℝ)) / 2) : ℝ), (pyInt ((w.y + (elbow_y : ℝ)) / 2) : ℝ),
     w.z - depth_change / 2⟩,
   ⟨23, (pyInt (w.x + scaled_dx * (25 / 100)) : ℝ), (pyInt (w.y + scaled_dy * (25 / 100)) : ℝ),
     w.z - depth_change / 4⟩,
   ⟨24, (pyInt (w.x + scaled_dx * (75 / 100)) : ℝ), (pyInt (w.y + scaled_dy * (75 / 100)) : ℝ),
     w.z - depth_change * 3 / 4⟩]

/-- Embeds `_add_forearm_landmarks` (lines 159-274): the input list is
copied, and the four forearm entries are appended only when the list is
nonempty, at least one reference MCP exists, and the averaged direction has
positive magnitude; otherwise the copy is returned unchanged. -/
noncomputable def add_forearm_landmarks (lms : List Lm) (imgW imgH : ℝ) : List Lm :=
  lms ++
    (if 0 < lms.length then
      if 0 < (ref_points lms).length then
        if 0 < avg_magnitude lms then forearm_entries lms imgW imgH else []
      else []
    else [])

/-- The id→name assignment of `_send_to_unity_multi` (lines 296-308); ids
below 21 defer to `hand_tracker.get_landmark_name`, modelled by the same
`LANDMARK_NAMES` table with default `"Unknown"`. -/
def landmark_name (lmId : ℕ) : String :=
  if lmId < 21 then RealHandTracking.LANDMARK_NAMES.getD lmId "Unknown"
  else if lmId = 21 then "ELBOW"
  else if lmId = 22 then "FOREARM_MID"
  else if lmId = 23 then "FOREARM_QUARTER"
  else if lmId = 24 then "FOREARM_THREE_QUARTER"
  else "UNKNOWN_" ++ toString lmId

end UnityExporter

namespace CameraToArduinoPca

theorem pyInt_clamp_mem {lo hi : ℤ} {x c d : ℚ} (hc : c = (lo : ℚ))
    (hd : d = (hi : ℚ)) (h : c ≤ d) :
    lo ≤ pyInt (min (max x c) d) ∧ pyInt (min (max x c) d) ≤ hi := by
  subst hc hd
  exact pyInt_bounds (le_min (le_max_right _ _) h) (min_le_right _ _)

theorem wrist_servo_mem (a : ℚ) : 0 ≤ wrist_servo a ∧ wrist_servo a ≤ 180 :=
  pyInt_clamp_mem (by norm_num) (by norm_num) (by norm_num)

theorem smooth_step_between (p r : ℤ) :
    min p r ≤ smooth_step p r ∧ smooth_step p r ≤ max p r := by
  unfold smooth_step smoothing_factor
  have hp1 : ((min p r : ℤ) : ℚ) ≤ (p : ℚ) := by exact_mod_cast min_le_left p r
  have hp2 : ((min p r : ℤ) : ℚ) ≤ (r : ℚ) := by exact_mod_cast min_le_right p r
  have hq1 : (p : ℚ) ≤ ((max p r : ℤ) : ℚ) := by exact_mod_cast le_max_left p r
  have hq2 : (r : ℚ) ≤ ((max p r : ℤ) : ℚ) := by exact_mod_cast le_max_right p r
  exact pyInt_bounds (by linarith) (by linarith)

theorem smooth_step_mem {p r : ℤ} (hp0 : 0 ≤ p) (hp1 : p ≤ 180)
    (hr0 : 0 ≤ r) (hr1 : r ≤ 180) :
    0 ≤ smooth_step p r ∧ smooth_step p r ≤ 180 := by
  obtain ⟨h1, h2⟩ := smooth_step_between p r
  constructor
  · exact le_trans (le_min hp0 hr0) h1
  · exact le_trans h2 (max_le hp1 hr1)

theorem wrist_fold_inv (angles : List ℚ) (st : Option ℤ)
    (h : ∀ p, st = some p → 0 ≤ p ∧ p ≤ 180) :
    ∀ s, angles.foldl (fun st a => (wrist_emit st (wrist_servo a)).2) st = some s →
      0 ≤ s ∧ s ≤ 180 := by
  induction angles generalizing st with
  | nil => exact h
  | cons a tl ih =>
    intro s hs
    refine ih _ ?_ s hs
    intro p hp
    simp only [wrist_emit, Option.some.injEq] at hp
    obtain ⟨hw0, hw1⟩ := wrist_servo_mem a
    have hprev : 0 ≤ st.getD (wrist_servo a) ∧ st.getD (wrist_servo a) ≤ 180 := by
      cases hst : st with
      | none => simpa using ⟨hw0, hw1⟩
      | some q => simpa using h q hst
    rw [← hp]
    exact smooth_step_mem hprev.1 hprev.2 hw0 hw1

/-- C2 (amended): every channel applies the source's linear map onto the
output range `[0,180]` and then clamps to its channel clamp range, so every
servo value lies in `[0,180]` and the ring value is never below 30; for
every channel whose clamp range is `[0,180]` (thumb, index, middle, pinky,
wrist) this coincides with the spec's formula
`(angle - domain_min) * (clamp_max - clamp_min) / (domain_max - domain_min) + clamp_min`
followed by clamping, and inverted domains are honored by it; the ring
channel (clamp `[30,180]`) does not follow that formula. -/
theorem range_mapper_clamps (a : ℚ) :
    (0 ≤ thumb_servo a ∧ thumb_servo a ≤ 180) ∧
    (0 ≤ index_servo a ∧ index_servo a ≤ 180) ∧
    (0 ≤ middle_servo a ∧ middle_servo a ≤ 180) ∧
    (30 ≤ ring_servo a ∧ ring_servo a ≤ 180) ∧
    (0 ≤ pinky_servo a ∧ pinky_servo a ≤ 180) ∧
    (0 ≤ wrist_servo a ∧ wrist_servo a ≤ 180) ∧
    thumb_servo a = pyInt (specChannelOut 170 120 0 180 a) ∧
    index_servo a = pyInt (specChannelOut 180 30 0 180 a) ∧
    middle_servo a = pyInt (specChannelOut 180 30 0 180 a) ∧
    pinky_servo a = pyInt (specChannelOut 175 20 0 180 a) ∧
    wrist_servo a = pyInt (specChannelOut 70 110 0 180 a) := by
  refine ⟨?_, ?_, ?_, ?_, ?_, wrist_servo_mem a, ?_, ?_, ?_, ?_, ?_⟩
  · exact pyInt_clamp_mem (by norm_num) (by norm_num) (by norm_num)
  · exact pyInt_clamp_mem (by norm_num) (by norm_num) (by norm_num)
  · exact pyInt_clamp_mem (by norm_num) (by norm_num) (by norm_num)
  · exact pyInt_clamp_mem (by norm_num) (by norm_num) (by norm_num)
  · exact pyInt_clamp_mem (by norm_num) (by norm_num) (by norm_num)
  · norm_num [thumb_servo, specChannelOut, map_value]
  · norm_num [index_servo, specChannelOut, map_value]
  · norm_num [middle_servo, specChannelOut, map_value]
  · norm_num [pinky_servo, specChannelOut, map_value]
  · norm_num [wrist_servo, specChannelOut, map_value]

/-- C2 counterexample: on the ring channel at raw angle 100 the source emits
`int(min(max(map_value(100,180,20,0,180),30),180)) = 90`, while the claimed
formula `(angle-180)*(180-30)/(20-180)+30` clamped to `[30,180]` gives 105. -/
theorem range_mapper_spec_formula_fails_on_ring :
    ring_servo 100 = 90 ∧
    pyInt (specChannelOut 180 20 30 180 100) = 105 ∧
    (90 : ℤ) ≠ 105 := by
  refine ⟨?_, ?_, by decide⟩
  · norm_num [ring_servo, map_value, pyInt]
  · norm_num [specChannelOut, pyInt]

/-- The exact rational value of the IEEE-754 double nearest 0.3, the
literal `0.3` of line 228 (`0.3` is not exactly representable). -/
def fl_point_three : ℚ := 5404319552844595 / 2 ^ 54

/-- The exact rational value of the double subtraction `1 - 0.3` of line
229: the halfway tie rounds to even, giving exactly the double nearest 0.7
(Python: `1 - 0.3 == 0.7`). -/
def fl_one_minus_point_three : ℚ := 3152519739159347 / 2 ^ 52

/-- A conservative bound on the remaining rounding error of the double
evaluation of `prev * (1-0.3) + raw * 0.3` against the exact products
`prev * fl_one_minus_point_three + raw * fl_point_three`, valid for all
`prev, raw ∈ [0,180]` (the true worst case over that range is `3 / 2^47`). -/
def float_eval_slack : ℚ := 1 / 2 ^ 40

/-- The exact rational value of the IEEE-754 double evaluation of
`58 * (1 - 0.3) + 58 * 0.3` (lines 229-230 at `prev = raw = 58`), namely
`57.99999999999999289...`. -/
def smoothReal58 : ℚ := 8162774324609023 / 2 ^ 47

theorem pyInt_mem_of_lt {x : ℚ} {lo hi : ℤ} (hlo : (lo : ℚ) - 1 < x)
    (hhi : x < (hi : ℚ) + 1) (hhi0 : 0 ≤ hi) :
    lo - 1 ≤ pyInt x ∧ pyInt x ≤ hi := by
  unfold pyInt
  split
  · rename_i hneg
    constructor
    · have h1 : ((lo - 1 : ℤ) : ℚ) < (⌈x⌉ : ℚ) := by
        push_cast
        exact lt_of_lt_of_le hlo (Int.le_ceil x)
      exact le_of_lt (by exact_mod_cast h1)
    · have h2 : ⌈x⌉ ≤ 0 := Int.ceil_le.mpr (by exact_mod_cast le_of_lt hneg)
      omega
  · constructor
    · apply Int.le_floor.mpr
      push_cast
      linarith
    · have h3 : ⌊x⌋ < hi + 1 := by
        apply Int.floor_lt.mpr
        push_cast
        exact hhi
      omega

/-- C3 (amended): the wrist smoothing stores `int(e)` where `e` is the
IEEE-754 double evaluation of `prev*(1-0.3) + raw*0.3` — within
`float_eval_slack` of `prev * fl_one_minus_point_three +
raw * fl_point_three`, since 0.3 is not exactly representable.  For every
`prev` and clamped `raw` in `[0,180]` the stored value lies between
`min(prev,raw) - 1` and `max(prev,raw)` (the rounding can push it one below
the exact convex combination), and on a first frame (`prev = raw`, the
state having been initialized to the raw servo value) the output is the raw
value or one below it — not always the raw value itself. -/
theorem wrist_smoothing_float_bounds (prev raw : ℤ) (y : ℚ)
    (hp0 : 0 ≤ prev) (hp1 : prev ≤ 180) (hr0 : 0 ≤ raw) (hr1 : raw ≤ 180)
    (hy : |y - ((prev : ℚ) * fl_one_minus_point_three + (raw : ℚ) * fl_point_three)| ≤
      float_eval_slack) :
    (min prev raw - 1 ≤ pyInt y ∧ pyInt y ≤ max prev raw) ∧
    (prev = raw → (pyInt y = raw ∨ pyInt y = raw - 1)) := by
  obtain ⟨hy1, hy2⟩ := abs_le.mp hy
  have hc7 : (0 : ℚ) ≤ fl_one_minus_point_three := by norm_num [fl_one_minus_point_three]
  have hc3 : (0 : ℚ) ≤ fl_point_three := by norm_num [fl_point_three]
  have hm0 : (0 : ℤ) ≤ min prev raw := le_min hp0 hr0
  have hM0 : (0 : ℤ) ≤ max prev raw := le_trans hp0 (le_max_left _ _)
  have hmp : ((min prev raw : ℤ) : ℚ) ≤ (prev : ℚ) := by exact_mod_cast min_le_left prev raw
  have hmr : ((min prev raw : ℤ) : ℚ) ≤ (raw : ℚ) := by exact_mod_cast min_le_right prev raw
  have hMp : (prev : ℚ) ≤ ((max prev raw : ℤ) : ℚ) := by exact_mod_cast le_max_left prev raw
  have hMr : (raw : ℚ) ≤ ((max prev raw : ℤ) : ℚ) := by exact_mod_cast le_max_right prev raw
  have hm180 : ((min prev raw : ℤ) : ℚ) ≤ 180 := le_trans hmp (by exact_mod_cast hp1)
  have hM00 : (0 : ℚ) ≤ ((max prev raw : ℤ) : ℚ) := by exact_mod_cast hM0
  have hvlow : ((min prev raw : ℤ) : ℚ) * (fl_one_minus_point_three + fl_point_three) ≤
      (prev : ℚ) * fl_one_minus_point_three + (raw : ℚ) * fl_point_three := by
    rw [mul_add]
    have e1 := mul_le_mul_of_nonneg_right hmp hc7
    have e2 := mul_le_mul_of_nonneg_right hmr hc3
    linarith
  have hvhigh : (prev : ℚ) * fl_one_minus_point_three + (raw : ℚ) * fl_point_three ≤
      ((max prev raw : ℤ) : ℚ) * (fl_one_minus_point_three + fl_point_three) := by
    rw [mul_add]
    have e1 := mul_le_mul_of_nonneg_right hMp hc7
    have e2 := mul_le_mul_of_nonneg_right hMr hc3
    linarith
  have hsum : fl_one_minus_point_three + fl_point_three = 1 - 1 / 2 ^ 54 := by
    norm_num [fl_one_minus_point_three, fl_point_three]
  rw [hsum] at hvlow hvhigh
  have hlow : ((min prev raw : ℤ) : ℚ) - 1 < y := by
    have h7 : ((min prev raw : ℤ) : ℚ) * (1 / 2 ^ 54) ≤ 180 * (1 / 2 ^ 54) :=
      mul_le_mul_of_nonneg_right hm180 (by norm_num)
    have h8 : ((min prev raw : ℤ) : ℚ) * (1 - 1 / 2 ^ 54) =
        ((min prev raw : ℤ) : ℚ) - ((min prev raw : ℤ) : ℚ) * (1 / 2 ^ 54) := by ring
    have e4 : (180 : ℚ) * (1 / 2 ^ 54) + float_eval_slack < 1 := by
      norm_num [float_eval_slack]
    linarith
  have hhigh : y < ((max prev raw : ℤ) : ℚ) + 1 := by
    have h9 : ((max prev raw : ℤ) : ℚ) * (1 - 1 / 2 ^ 54) =
        ((max prev raw : ℤ) : ℚ) - ((max prev raw : ℤ) : ℚ) * (1 / 2 ^ 54) := by ring
    have h10 : (0 : ℚ) ≤ ((max prev raw : ℤ) : ℚ) * (1 / 2 ^ 54) :=
      mul_nonneg hM00 (by norm_num)
    have e6 : float_eval_slack < 1 := by norm_num [float_eval_slack]
    linarith
  refine ⟨pyInt_mem_of_lt hlow hhigh hM0, ?_⟩
  intro hpr
  subst hpr
  obtain ⟨ha, hb⟩ := pyInt_mem_of_lt hlow hhigh hM0
  rw [min_self] at ha
  rw [max_self] at hb
  omega

/-- C3 witness: at the reachable first frame `prev = raw = 58`, with `y`
the exact value of the IEEE evaluation (`smoothReal58`), the stored output
lies in `[57, 58]` and equals the raw value or one below it. -/
theorem wrist_smoothing_float_bounds_witness :
    (min 58 58 - 1 ≤ pyInt smoothReal58 ∧ pyInt smoothReal58 ≤ max 58 58) ∧
    (pyInt smoothReal58 = 58 ∨ pyInt smoothReal58 = 58 - 1) := by
  have h := wrist_smoothing_float_bounds 58 58 smoothReal58 (by decide) (by decide)
    (by decide) (by decide)
    (by
      rw [abs_le]
      constructor <;>
        norm_num [smoothReal58, fl_one_minus_point_three, fl_point_three, float_eval_slack])
  exact ⟨h.1, h.2 rfl⟩

/-- C3 counterexample: at the reachable first frame `prev = raw = 58` the
IEEE evaluation of `58*(1-0.3) + 58*0.3` is `smoothReal58 ≈ 57.99999999999999`
(within `float_eval_slack` of the rounded-constant combination), so the
source stores `int(...) = 57`: the first output is not the raw value 58,
57 lies strictly below `min(prev, raw)`, and it differs from the claimed
exact `prev*(1-α) + raw*α = 58`. -/
theorem wrist_smoothing_first_frame_not_raw :
    pyInt smoothReal58 = 57 ∧
    |smoothReal58 - ((58 : ℚ) * fl_one_minus_point_three + (58 : ℚ) * fl_point_three)| ≤
      float_eval_slack ∧
    ¬((58 : ℤ) ≤ 57) ∧
    ((57 : ℤ) : ℚ) ≠ (58 : ℚ) * (1 - 3 / 10) + (58 : ℚ) * (3 / 10) := by
  refine ⟨?_, ?_, by decide, by norm_num⟩
  · norm_num [smoothReal58, pyInt]
  · rw [abs_le]
    constructor <;>
      norm_num [smoothReal58, fl_one_minus_point_three, fl_point_three, float_eval_slack]

/-- C9: the persisted wrist smoothing state is an integer in `[0,180]` after
every frame: the clamped wrist servo value that initializes it is in
`[0,180]`, the update `int(prev*0.7 + raw*0.3)` preserves `[0,180]` whenever
`prev` and the clamped `raw` are in `[0,180]`, and hence after any run of
frames the stored state is in `[0,180]`. -/
theorem wrist_state_invariant :
    (∀ a : ℚ, 0 ≤ wrist_servo a ∧ wrist_servo a ≤ 180) ∧
    (∀ prev raw : ℤ, 0 ≤ prev → prev ≤ 180 → 0 ≤ raw → raw ≤ 180 →
      0 ≤ smooth_step prev raw ∧ smooth_step prev raw ≤ 180) ∧
    (∀ (angles : List ℚ) (s : ℤ), wrist_run angles = some s → 0 ≤ s ∧ s ≤ 180) := by
  refine ⟨wrist_servo_mem, fun p r h0 h1 h2 h3 => smooth_step_mem h0 h1 h2 h3, ?_⟩
  intro angles s hs
  exact wrist_fold_inv angles none (by simp) s hs

theorem rotation_mapped_mem (lm : List Vec3) :
    0 ≤ rotation_mapped lm ∧ rotation_mapped lm ≤ 180 := by
  unfold rotation_mapped
  exact ⟨le_max_left _ _, max_le (by norm_num) (min_le_left _ _)⟩

/-- C4 (amended): the wrist-rotation extractor maps the atan2-derived raw
angle from `[-60,60]` onto `[0,180]` by `map_value` and clamps, so the
returned value is in `[0,180]`; the dead zone is strict: whenever the
mapped value is strictly within 5 degrees of 90 the result is exactly 90
(a mapped value exactly 5 away passes through unchanged), and in particular
a mapped value of exactly 90 yields 90. -/
theorem rotation_deadzone (lm : List Vec3) :
    (0 ≤ calculate_hand_rotation lm ∧ calculate_hand_rotation lm ≤ 180) ∧
    (|rotation_mapped lm - 90| < 5 → calculate_hand_rotation lm = 90) ∧
    (rotation_mapped lm = 90 → calculate_hand_rotation lm = 90) := by
  unfold calculate_hand_rotation
  by_cases hlen : 17 < lm.length
  · rw [if_pos hlen]
    by_cases hdz : |rotation_mapped lm - 90| < 5
    · rw [if_pos hdz]
      exact ⟨⟨by norm_num, by norm_num⟩, fun _ => rfl, fun _ => rfl⟩
    · rw [if_neg hdz]
      obtain ⟨h0, h1⟩ := rotation_mapped_mem lm
      refine ⟨pyInt_bounds (by exact_mod_cast h0) (by exact_mod_cast h1), ?_, ?_⟩
      · intro h
        exact absurd h hdz
      · intro h
        exact absurd (by rw [h]; norm_num) hdz
  · rw [if_neg hlen]
    exact ⟨⟨by norm_num, by norm_num⟩, fun _ => rfl, fun _ => rfl⟩

/-- C9 witness: a concrete two-frame run (raw wrist angles 100 then 0)
leaves the state at 94, inside `[0,180]`. -/
theorem wrist_state_invariant_witness :
    (0 ≤ wrist_servo 100 ∧ wrist_servo 100 ≤ 180) ∧
    (0 ≤ smooth_step 135 0 ∧ smooth_step 135 0 ≤ 180) ∧
    (0 ≤ (94 : ℤ) ∧ (94 : ℤ) ≤ 180) :=
  ⟨wrist_state_invariant.1 100,
   wrist_state_invariant.2.1 135 0 (by decide) (by decide) (by decide) (by decide),
   wrist_state_invariant.2.2 [100, 0] 94 (by
     norm_num [wrist_run, wrist_emit, wrist_servo, smooth_step, smoothing_factor,
       map_value, pyInt])⟩

/-- The zero landmark, used to pad concrete test frames. -/
noncomputable def origin3 : Vec3 := (0, 0, 0)

/-- An MCP landmark straight below the wrist in image space. -/
noncomputable def mcpDown : Vec3 := (0, -1, 0)

/-- A frame whose wrist is at the origin and whose four MCP joints sit at
`mcpDown`, so the wrist→palm-center vector points straight up in image
space and the mapped rotation is exactly 90. -/
noncomputable def lmRot90 : List Vec3 :=
  [origin3, origin3, origin3, origin3, origin3,
   mcpDown, origin3, origin3, origin3,
   mcpDown, origin3, origin3, origin3,
   mcpDown, origin3, origin3, origin3,
   mcpDown]

theorem palm_center_lmRot90 : palm_center lmRot90 = (0, -1) := by
  norm_num [palm_center, lmRot90, origin3, mcpDown]

theorem rotation_mapped_lmRot90 : rotation_mapped lmRot90 = 90 := by
  have hang : rotation_angle lmRot90 = 0 := by
    unfold rotation_angle
    rw [palm_center_lmRot90]
    have h0 : lmRot90.getD 0 (0, 0, 0) = origin3 := rfl
    rw [h0]
    unfold origin3 atan2
    norm_num
    rw [show (⟨1, 0⟩ : ℂ) = 1 from by simp [Complex.ext_iff]]
    rw [Complex.arg_one]
    simp [degrees]
  unfold rotation_mapped
  rw [hang]
  norm_num [map_value]

/-- C4 witness: on the concrete frame `lmRot90` the mapped value is exactly
90, strictly inside the dead zone, and the extractor returns exactly 90. -/
theorem rotation_deadzone_witness :
    rotation_mapped lmRot90 = 90 ∧
    |rotation_mapped lmRot90 - 90| < 5 ∧
    calculate_hand_rotation lmRot90 = 90 :=
  ⟨rotation_mapped_lmRot90,
   by rw [rotation_mapped_lmRot90]; norm_num,
   (rotation_deadzone lmRot90).2.2 rotation_mapped_lmRot90⟩

/-- An MCP landmark placed so that the wrist→palm-center direction makes an
angle of exactly π/54 radians (10/3 degrees) with the upward image axis. -/
noncomputable def mcpTilt : Vec3 :=
  (Real.sin (Real.pi / 54), -Real.cos (Real.pi / 54), 0)

/-- A frame whose mapped wrist rotation is exactly 95: five degrees from
the dead-zone center. -/
noncomputable def lmRot95 : List Vec3 :=
  [origin3, origin3, origin3, origin3, origin3,
   mcpTilt, origin3, origin3, origin3,
   mcpTilt, origin3, origin3, origin3,
   mcpTilt, origin3, origin3, origin3,
   mcpTilt]

theorem palm_center_lmRot95 :
    palm_center lmRot95 = (Real.sin (Real.pi / 54), -Real.cos (Real.pi / 54)) := by
  simp [palm_center, lmRot95, origin3, mcpTilt]
  constructor <;> ring

theorem rotation_mapped_lmRot95 : rotation_mapped lmRot95 = 95 := by
  have hang : rotation_angle lmRot95 = degrees (Real.pi / 54) := by
    unfold rotation_angle
    rw [palm_center_lmRot95]
    have h0 : lmRot95.getD 0 (0, 0, 0) = origin3 := rfl
    rw [h0]
    unfold atan2 origin3
    have h1 : (⟨-(-Real.cos (Real.pi / 54) - 0), Real.sin (Real.pi / 54) - 0⟩ : ℂ) =
        Complex.mk (Real.cos (Real.pi / 54)) (Real.sin (Real.pi / 54)) := by
      simp [Complex.ext_iff]
    rw [h1, Complex.mk_eq_add_mul_I]
    have hmem : Real.pi / 54 ∈ Set.Ioc (-Real.pi) Real.pi := by
      have hp := Real.pi_pos
      constructor <;> [linarith; linarith]
    rw [Complex.ofReal_cos, Complex.ofReal_sin, Complex.arg_cos_add_sin_mul_I hmem]
  have hdeg : degrees (Real.pi / 54) = 10 / 3 := by
    unfold degrees
    have hp := Real.pi_ne_zero
    field_simp
    ring
  unfold rotation_mapped
  rw [hang, hdeg]
  norm_num [map_value]

/-- C4 counterexample: on the frame `lmRot95` the mapped value is 95 —
within 5 degrees of 90 in the inclusive sense — yet the extractor returns
95, not 90: the dead zone of the source is strict (`abs(... - 90) < 5`). -/
theorem rotation_deadzone_boundary_passes_through :
    rotation_mapped lmRot95 = 95 ∧
    |(95 : ℝ) - 90| ≤ 5 ∧
    calculate_hand_rotation lmRot95 = 95 ∧
    (95 : ℤ) ≠ 90 := by
  refine ⟨rotation_mapped_lmRot95, by norm_num, ?_, by decide⟩
  unfold calculate_hand_rotation
  rw [if_pos (by simp [lmRot95] : 17 < lmRot95.length)]
  rw [rotation_mapped_lmRot95]
  rw [if_neg (by norm_num)]
  rw [show (95 : ℝ) = ((95 : ℤ) : ℝ) by norm_num, pyInt_intCast]

end CameraToArduinoPca

/-- C7 (amended): on a frame with zero detected hands the telemetry encoder
returns at line 38 of `real_hand_tracking.py` before building or sending any
packet — no datagram (not even an empty-hands one) is emitted — and the
command sink of `camera_to_arduino_pca9685.py` emits zero channel commands
and leaves the smoothing state untouched. -/
theorem empty_frame_emits_nothing (t : ℝ) (c : Bool) (st : Option ℤ) :
    RealHandTracking.send_hand_data [] t = none ∧
    CameraToArduinoPca.send_servo_angles [] c st = ([], st) := by
  constructor
  · simp [RealHandTracking.send_hand_data]
  · simp [CameraToArduinoPca.send_servo_angles]

/-- C7 counterexample: with zero hands the encoder emits nothing at all,
not the claimed `{"timestamp": T, "hands": []}` packet. -/
theorem empty_frame_no_empty_packet :
    RealHandTracking.send_hand_data [] 0 = none ∧
    (none : Option RealHandTracking.Packet) ≠ some ⟨[], 0⟩ := by
  constructor
  · simp [RealHandTracking.send_hand_data]
  · simp

/-- C8: a missing joint index neutralizes only the affected angle: either
finger-angle variant returns 90 whenever any of its five landmark lookups
fails, the rotation extractor returns 90 whenever the frame has at most 17
landmarks, and the frame as a whole is still processed — every hand always
contributes exactly its six channel commands. -/
theorem missing_joint_neutral :
    (∀ (lm : List Vec3) (p m i d t : ℕ),
      lm.get? p = none ∨ lm.get? m = none ∨ lm.get? i = none ∨
        lm.get? d = none ∨ lm.get? t = none →
      CameraToArduinoPca.calculate_finger_angle lm p m i d t = 90) ∧
    (∀ (lm : List Vec3) (p m i d t : ℕ),
      lm.get? p = none ∨ lm.get? m = none ∨ lm.get? i = none ∨
        lm.get? d = none ∨ lm.get? t = none →
      CameraToArduino.calculate_finger_angle lm p m i d t = 90) ∧
    (∀ lm : List Vec3, lm.length ≤ 17 →
      CameraToArduinoPca.calculate_hand_rotation lm = 90) ∧
    (∀ (lm : List Vec3) (st : Option ℤ),
      ((CameraToArduinoPca.hand_commands lm st).1).length = 6) := by
  refine ⟨?_, ?_, ?_, ?_⟩
  · intro lm p m i d t h
    unfold CameraToArduinoPca.calculate_finger_angle
    split
    · next hp hm hi hd ht =>
      rcases h with h | h | h | h | h <;> simp_all
    · rfl
  · intro lm p m i d t h
    unfold CameraToArduino.calculate_finger_angle
    split
    · next hp hm hi hd ht =>
      rcases h with h | h | h | h | h <;> simp_all
    · rfl
  · intro lm h
    unfold CameraToArduinoPca.calculate_hand_rotation
    rw [if_neg (by omega)]
  · intro lm st
    rfl

/-- C8 witness: on the empty frame both finger-angle variants and the
rotation extractor return the neutral 90, and a hand still contributes six
channel commands. -/
theorem missing_joint_neutral_witness :
    CameraToArduinoPca.calculate_finger_angle [] 0 1 2 3 4 = 90 ∧
    CameraToArduino.calculate_finger_angle [] 0 1 2 3 4 = 90 ∧
    CameraToArduinoPca.calculate_hand_rotation [] = 90 ∧
    ((CameraToArduinoPca.hand_commands [] none).1).length = 6 :=
  ⟨missing_joint_neutral.1 [] 0 1 2 3 4 (Or.inl rfl),
   missing_joint_neutral.2.1 [] 0 1 2 3 4 (Or.inl rfl),
   missing_joint_neutral.2.2.1 [] (by simp),
   missing_joint_neutral.2.2.2 [] none⟩

theorem pca_finger_angle_eq (lm : List Vec3) (p m i d t : ℕ)
    (pP mP iP dP tP : Vec3)
    (hp : lm.get? p = some pP) (hm : lm.get? m = some mP)
    (hi : lm.get? i = some iP) (hd : lm.get? d = some dP)
    (ht : lm.get? t = some tP) :
    CameraToArduinoPca.calculate_finger_angle lm p m i d t =
      (if mag3 (sub3 iP mP) = 0 ∨ mag3 (sub3 tP iP) = 0 then 90
       else pyInt (max 0 (min 180 (180 - min 180 (degrees (Real.arccos
         (max (min (dot3 (sub3 iP mP) (sub3 tP iP) /
           (mag3 (sub3 iP mP) * mag3 (sub3 tP iP))) 1) (-1)))))))) := by
  unfold CameraToArduinoPca.calculate_finger_angle
  rw [hp, hm, hi, hd, ht]

theorem plain_finger_angle_eq (lm : List Vec3) (p m i d t : ℕ)
    (pP mP iP dP tP : Vec3)
    (hp : lm.get? p = some pP) (hm : lm.get? m = some mP)
    (hi : lm.get? i = some iP) (hd : lm.get? d = some dP)
    (ht : lm.get? t = some tP) :
    CameraToArduino.calculate_finger_angle lm p m i d t =
      (if mag3 (sub3 iP mP) = 0 ∨ mag3 (sub3 dP iP) = 0 then 90
       else pyInt (max 0 (min 179 (90 + ((degrees (Real.arccos
         (max (min (dot3 (sub3 iP mP) (sub3 dP iP) /
           (mag3 (sub3 iP mP) * mag3 (sub3 dP iP))) 1) (-1)))) - 90))))) := by
  unfold CameraToArduino.calculate_finger_angle
  rw [hp, hm, hi, hd, ht]

/-- C1 (amended): for valid joint lookups, both finger-angle variants
return a value in `[0,180]` whenever their two segment vectors have
non-zero magnitude, and return exactly 90 whenever either magnitude is
exactly zero (the source tests `magnitude == 0`, not a 1e-9 threshold).
The PCA variant uses MCP→PIP and PIP→TIP; the plain variant uses MCP→PIP
and PIP→DIP. -/
theorem finger_angle_range_and_degenerate (lm : List Vec3) (p m i d t : ℕ)
    (pP mP iP dP tP : Vec3)
    (hp : lm.get? p = some pP) (hm : lm.get? m = some mP)
    (hi : lm.get? i = some iP) (hd : lm.get? d = some dP)
    (ht : lm.get? t = some tP) :
    ((mag3 (sub3 iP mP) = 0 ∨ mag3 (sub3 tP iP) = 0) →
      CameraToArduinoPca.calculate_finger_angle lm p m i d t = 90) ∧
    (mag3 (sub3 iP mP) ≠ 0 → mag3 (sub3 tP iP) ≠ 0 →
      0 ≤ CameraToArduinoPca.calculate_finger_angle lm p m i d t ∧
        CameraToArduinoPca.calculate_finger_angle lm p m i d t ≤ 180) ∧
    ((mag3 (sub3 iP mP) = 0 ∨ mag3 (sub3 dP iP) = 0) →
      CameraToArduino.calculate_finger_angle lm p m i d t = 90) ∧
    (mag3 (sub3 iP mP) ≠ 0 → mag3 (sub3 dP iP) ≠ 0 →
      0 ≤ CameraToArduino.calculate_finger_angle lm p m i d t ∧
        CameraToArduino.calculate_finger_angle lm p m i d t ≤ 180) := by
  rw [pca_finger_angle_eq lm p m i d t pP mP iP dP tP hp hm hi hd ht,
    plain_finger_angle_eq lm p m i d t pP mP iP dP tP hp hm hi hd ht]
  refine ⟨?_, ?_, ?_, ?_⟩
  · intro h
    exact if_pos h
  · intro h1 h2
    rw [if_neg (by tauto)]
    refine pyInt_bounds ?_ ?_
    · exact_mod_cast le_max_left _ _
    · exact_mod_cast max_le (by norm_num) (min_le_left _ _)
  · intro h
    exact if_pos h
  · intro h1 h2
    rw [if_neg (by tauto)]
    refine pyInt_bounds ?_ ?_
    · exact_mod_cast le_max_left _ _
    · exact_mod_cast max_le (by norm_num) (le_trans (min_le_left _ _) (by norm_num))

theorem mag3_ne_zero {v : Vec3} (h : 0 < v.1 ^ 2 + v.2.1 ^ 2 + v.2.2 ^ 2) :
    mag3 v ≠ 0 := by
  unfold mag3
  exact Real.sqrt_ne_zero'.mpr h

/-- A well-formed straight-finger test frame for the five joint indices. -/
noncomputable def lmFinger : List Vec3 :=
  [(0, 0, 0), (0, 0, 0), (1, 0, 0), (2, 0, 0), (3, 0, 0)]

/-- C1 witness: on the concrete frame `lmFinger` both segment vectors are
non-zero and both variants return a value in `[0,180]`. -/
theorem finger_angle_range_witness :
    (0 ≤ CameraToArduinoPca.calculate_finger_angle lmFinger 0 1 2 3 4 ∧
      CameraToArduinoPca.calculate_finger_angle lmFinger 0 1 2 3 4 ≤ 180) ∧
    (0 ≤ CameraToArduino.calculate_finger_angle lmFinger 0 1 2 3 4 ∧
      CameraToArduino.calculate_finger_angle lmFinger 0 1 2 3 4 ≤ 180) := by
  have h := finger_angle_range_and_degenerate lmFinger 0 1 2 3 4
    (0, 0, 0) (0, 0, 0) (1, 0, 0) (2, 0, 0) (3, 0, 0) rfl rfl rfl rfl rfl
  exact ⟨h.2.1 (mag3_ne_zero (by norm_num [sub3])) (mag3_ne_zero (by norm_num [sub3])),
    h.2.2.2 (mag3_ne_zero (by norm_num [sub3])) (mag3_ne_zero (by norm_num [sub3]))⟩

/-- A frame whose two segment vectors have magnitude exactly `1e-10`:
below the claimed `1e-9` threshold but non-zero. -/
noncomputable def lmTiny : List Vec3 :=
  [(0, 0, 0), (0, 0, 0), (1 / 10 ^ 10, 0, 0), (0, 0, 0), (2 / 10 ^ 10, 0, 0)]

/-- C1 counterexample: on `lmTiny` both segment magnitudes are `1e-10`,
strictly below `1e-9`, yet the PCA finger-angle function does not return
the neutral 90 — it computes the collinear configuration and returns 180.
The source's degenerate test is `magnitude == 0`, not a `1e-9` threshold. -/
theorem finger_angle_small_magnitude_not_neutral :
    mag3 (sub3 ((1 / 10 ^ 10 : ℝ), 0, 0) (0, 0, 0)) = 1 / 10 ^ 10 ∧
    (1 / 10 ^ 10 : ℝ) < 1 / 10 ^ 9 ∧
    CameraToArduinoPca.calculate_finger_angle lmTiny 0 1 2 3 4 = 180 ∧
    (180 : ℤ) ≠ 90 := by
  have hsub1 : sub3 ((1 / 10 ^ 10 : ℝ), 0, 0) (0, 0, 0) = (1 / 10 ^ 10, 0, 0) := by
    norm_num [sub3]
  have hsub2 : sub3 ((2 / 10 ^ 10 : ℝ), 0, 0) (1 / 10 ^ 10, 0, 0) = (1 / 10 ^ 10, 0, 0) := by
    norm_num [sub3]
  have hmag : mag3 ((1 / 10 ^ 10 : ℝ), 0, 0) = 1 / 10 ^ 10 := by
    unfold mag3
    rw [show ((1 / 10 ^ 10 : ℝ)) ^ 2 + (0 : ℝ) ^ 2 + (0 : ℝ) ^ 2 =
      ((1 / 10 ^ 10 : ℝ)) ^ 2 by ring]
    exact Real.sqrt_sq (by positivity)
  refine ⟨by rw [hsub1, hmag], by norm_num, ?_, by decide⟩
  rw [pca_finger_angle_eq lmTiny 0 1 2 3 4
    (0, 0, 0) (0, 0, 0) (1 / 10 ^ 10, 0, 0) (0, 0, 0) (2 / 10 ^ 10, 0, 0)
    rfl rfl rfl rfl rfl, hsub1, hsub2, hmag]
  rw [if_neg (by norm_num)]
  have hdot : dot3 ((1 / 10 ^ 10 : ℝ), 0, 0) (1 / 10 ^ 10, 0, 0) = 1 / 10 ^ 20 := by
    norm_num [dot3]
  rw [hdot]
  rw [show (1 / 10 ^ 20 : ℝ) / (1 / 10 ^ 10 * (1 / 10 ^ 10)) = 1 by norm_num]
  norm_num [Real.arccos_one, degrees]
  rw [show (180 : ℝ) = ((180 : ℤ) : ℝ) by norm_num, pyInt_intCast]

theorem add_forearm_eq (lms : List RealHandTracking.Joint)
    (w0 w9 : RealHandTracking.Joint)
    (h0 : lms.get? 0 = some w0) (h9 : lms.get? 9 = some w9) :
    RealHandTracking.add_forearm lms =
      lms ++
        [⟨21, "ELBOW", add3 w0.pos (scale3 (8 / 10)
            (neg3 (if 0 < mag3 (sub3 w9.pos w0.pos) then
              ((sub3 w9.pos w0.pos).1 / mag3 (sub3 w9.pos w0.pos),
               (sub3 w9.pos w0.pos).2.1 / mag3 (sub3 w9.pos w0.pos),
               (sub3 w9.pos w0.pos).2.2 / mag3 (sub3 w9.pos w0.pos))
              else sub3 w9.pos w0.pos)))⟩,
         ⟨22, "FOREARM_MID", add3 w0.pos (scale3 (6 / 10)
            (neg3 (if 0 < mag3 (sub3 w9.pos w0.pos) then
              ((sub3 w9.pos w0.pos).1 / mag3 (sub3 w9.pos w0.pos),
               (sub3 w9.pos w0.pos).2.1 / mag3 (sub3 w9.pos w0.pos),
               (sub3 w9.pos w0.pos).2.2 / mag3 (sub3 w9.pos w0.pos))
              else sub3 w9.pos w0.pos)))⟩,
         ⟨23, "FOREARM_QUARTER", add3 w0.pos (scale3 (4 / 10)
            (neg3 (if 0 < mag3 (sub3 w9.pos w0.pos) then
              ((sub3 w9.pos w0.pos).1 / mag3 (sub3 w9.pos w0.pos),
               (sub3 w9.pos w0.pos).2.1 / mag3 (sub3 w9.pos w0.pos),
               (sub3 w9.pos w0.pos).2.2 / mag3 (sub3 w9.pos w0.pos))
              else sub3 w9.pos w0.pos)))⟩,
         ⟨24, "FOREARM_THREE_QUARTER", add3 w0.pos (scale3 (2 / 10)
            (neg3 (if 0 < mag3 (sub3 w9.pos w0.pos) then
              ((sub3 w9.pos w0.pos).1 / mag3 (sub3 w9.pos w0.pos),
               (sub3 w9.pos w0.pos).2.1 / mag3 (sub3 w9.pos w0.pos),
               (sub3 w9.pos w0.pos).2.2 / mag3 (sub3 w9.pos w0.pos))
              else sub3 w9.pos w0.pos)))⟩] := by
  unfold RealHandTracking.add_forearm
  rw [h0, h9]

/-- C10: `_add_forearm_landmarks` is append-only: the returned list starts
with exactly the input entries in their original order, and everything after
them carries a synthesized forearm id (21-24).  (Heap aliasing is not
representable in the pure embedding; the function copies the input list and
only appends to the copy.) -/
theorem add_forearm_landmarks_append_only (lms : List UnityExporter.Lm)
    (imgW imgH : ℝ) :
    (UnityExporter.add_forearm_landmarks lms imgW imgH).take lms.length = lms ∧
    ∀ e ∈ (UnityExporter.add_forearm_landmarks lms imgW imgH).drop lms.length,
      e.id = 21 ∨ e.id = 22 ∨ e.id = 23 ∨ e.id = 24 := by
  constructor
  · unfold UnityExporter.add_forearm_landmarks
    exact List.take_left _ _
  · unfold UnityExporter.add_forearm_landmarks
    rw [List.drop_left]
    intro e he
    split_ifs at he with h1 h2 h3
    · simp only [UnityExporter.forearm_entries, List.mem_cons,
        List.not_mem_nil, or_false] at he
      rcases he with rfl | rfl | rfl | rfl <;> simp
    · simp at he
    · simp at he
    · simp at he

/-- C5 (amended): when the reference direction vector is exactly zero,
neither implementation divides by its magnitude; `real_hand_tracking.py`
then places all four synthesized forearm points exactly at the wrist, while
`unity_exporter.py` appends no forearm points at all and returns the
landmark list unchanged. -/
theorem forearm_degenerate_direction :
    (∀ (lms : List RealHandTracking.Joint) (w0 w9 : RealHandTracking.Joint),
      lms.get? 0 = some w0 → lms.get? 9 = some w9 →
      sub3 w9.pos w0.pos = (0, 0, 0) →
      RealHandTracking.add_forearm lms =
        lms ++ [⟨21, "ELBOW", w0.pos⟩, ⟨22, "FOREARM_MID", w0.pos⟩,
          ⟨23, "FOREARM_QUARTER", w0.pos⟩, ⟨24, "FOREARM_THREE_QUARTER", w0.pos⟩]) ∧
    (∀ (lms : List UnityExporter.Lm) (imgW imgH : ℝ),
      UnityExporter.avg_vec lms = (0, 0) →
      UnityExporter.add_forearm_landmarks lms imgW imgH = lms) := by
  constructor
  · intro lms w0 w9 h0 h9 hdir
    rw [add_forearm_eq lms w0 w9 h0 h9, hdir]
    have hm : mag3 ((0 : ℝ), 0, 0) = 0 := by simp [mag3]
    rw [hm]
    simp [add3, scale3, neg3]
  · intro lms imgW imgH havg
    have hm : UnityExporter.avg_magnitude lms = 0 := by
      unfold UnityExporter.avg_magnitude
      rw [havg]
      simp
    unfold UnityExporter.add_forearm_landmarks
    split_ifs with h1 h2 h3
    · rw [hm] at h3
      exact absurd h3 (lt_irrefl 0)
    · simp
    · simp
    · simp

/-- A ten-entry frame whose middle-finger MCP coincides with the wrist, so
the wrist→MCP direction is the zero vector. -/
noncomputable def lmsRhtDeg : List RealHandTracking.Joint :=
  [⟨0, "WRIST", (1, 2, 3)⟩, ⟨1, "", (1, 2, 3)⟩, ⟨2, "", (1, 2, 3)⟩,
   ⟨3, "", (1, 2, 3)⟩, ⟨4, "", (1, 2, 3)⟩, ⟨5, "", (1, 2, 3)⟩,
   ⟨6, "", (1, 2, 3)⟩, ⟨7, "", (1, 2, 3)⟩, ⟨8, "", (1, 2, 3)⟩,
   ⟨9, "MIDDLE_FINGER_MCP", (1, 2, 3)⟩]

/-- A landmark list whose three reference MCPs (ids 9, 5, 17) all share the
wrist's x/y coordinates, so the averaged direction is the zero vector. -/
noncomputable def lmsDeg : List UnityExporter.Lm :=
  [⟨0, 3, 4, 0⟩, ⟨9, 3, 4, 1⟩, ⟨5, 3, 4, 2⟩, ⟨17, 3, 4, 3⟩]

theorem avg_vec_lmsDeg : UnityExporter.avg_vec lmsDeg = (0, 0) := by
  simp [UnityExporter.avg_vec, UnityExporter.ref_points, lmsDeg, List.find?]

/-- C5 witness: on the concrete degenerate frames the tracking script puts
all four forearm joints at the wrist `(1,2,3)` and the exporter returns its
input unchanged. -/
theorem forearm_degenerate_direction_witness :
    RealHandTracking.add_forearm lmsRhtDeg =
      lmsRhtDeg ++ [⟨21, "ELBOW", (1, 2, 3)⟩, ⟨22, "FOREARM_MID", (1, 2, 3)⟩,
        ⟨23, "FOREARM_QUARTER", (1, 2, 3)⟩, ⟨24, "FOREARM_THREE_QUARTER", (1, 2, 3)⟩] ∧
    UnityExporter.add_forearm_landmarks lmsDeg 640 480 = lmsDeg :=
  ⟨forearm_degenerate_direction.1 lmsRhtDeg ⟨0, "WRIST", (1, 2, 3)⟩
      ⟨9, "MIDDLE_FINGER_MCP", (1, 2, 3)⟩ rfl rfl (by norm_num [sub3]),
   forearm_degenerate_direction.2 lmsDeg 640 480 avg_vec_lmsDeg⟩

/-- C5 counterexample: on `lmsDeg` the averaged direction is zero, and
`_add_forearm_landmarks` returns the list unchanged — no forearm point (id
21-24) exists at all, contradicting the claim that all four synthesized
points are placed at the wrist. -/
theorem forearm_degenerate_unity_appends_nothing :
    UnityExporter.avg_vec lmsDeg = (0, 0) ∧
    UnityExporter.add_forearm_landmarks lmsDeg 640 480 = lmsDeg ∧
    lmsDeg.map UnityExporter.Lm.id = [0, 9, 5, 17] := by
  refine ⟨avg_vec_lmsDeg, ?_, by simp [lmsDeg]⟩
  have hm : UnityExporter.avg_magnitude lmsDeg = 0 := by
    unfold UnityExporter.avg_magnitude
    rw [avg_vec_lmsDeg]
    simp
  unfold UnityExporter.add_forearm_landmarks
  split_ifs with h1 h2 h3
  · rw [hm] at h3
    exact absurd h3 (lt_irrefl 0)
  · simp
  · simp
  · simp

theorem pyInt_mid_bound (wx ex : ℝ) :
    |(pyInt ((wx + ex) / 2) : ℝ) - (wx + (ex - wx) / 2)| < 1 := by
  rw [show wx + (ex - wx) / 2 = (wx + ex) / 2 by ring]
  exact abs_pyInt_sub_lt _

theorem pyInt_frac_bound (wx sdx fr : ℝ) (h0 : 0 ≤ fr) (h1 : fr ≤ 1) :
    |(pyInt (wx + sdx * fr) : ℝ) - (wx + ((pyInt (wx + sdx) : ℝ) - wx) * fr)| < 2 := by
  have ha := abs_pyInt_sub_lt (wx + sdx * fr)
  have hb := abs_pyInt_sub_lt (wx + sdx)
  have hc : |(wx + sdx * fr) - (wx + ((pyInt (wx + sdx) : ℝ) - wx) * fr)| =
      |(pyInt (wx + sdx) : ℝ) - (wx + sdx)| * fr := by
    rw [show (wx + sdx * fr) - (wx + ((pyInt (wx + sdx) : ℝ) - wx) * fr) =
      -((pyInt (wx + sdx) : ℝ) - (wx + sdx)) * fr by ring]
    rw [abs_mul, abs_neg, abs_of_nonneg h0]
  have hd := abs_sub_le ((pyInt (wx + sdx * fr) : ℝ)) (wx + sdx * fr)
    (wx + ((pyInt (wx + sdx) : ℝ) - wx) * fr)
  rw [hc] at hd
  have he : |(pyInt (wx + sdx) : ℝ) - (wx + sdx)| * fr ≤
      |(pyInt (wx + sdx) : ℝ) - (wx + sdx)| :=
    mul_le_of_le_one_right (abs_nonneg _) h1
  linarith

/-- A frame for the exporter with the wrist at the origin and a single
reference MCP (id 9) at `(-3,-4)`, giving averaged direction `(3,4)` of
magnitude 5. -/
noncomputable def lmsU : List UnityExporter.Lm := [⟨0, 0, 0, 0⟩, ⟨9, -3, -4, 0⟩]

theorem avg_vec_lmsU : UnityExporter.avg_vec lmsU = (3, 4) := by
  have h9 : lmsU.find? (fun l => l.id == 9) = some ⟨9, -3, -4, 0⟩ := rfl
  have h5 : lmsU.find? (fun l => l.id == 5) = none := rfl
  have h17 : lmsU.find? (fun l => l.id == 17) = none := rfl
  unfold UnityExporter.avg_vec UnityExporter.ref_points
  rw [h9, h5, h17]
  norm_num [lmsU]

theorem avg_magnitude_lmsU : UnityExporter.avg_magnitude lmsU = 5 := by
  unfold UnityExporter.avg_magnitude
  rw [avg_vec_lmsU]
  rw [show ((3 : ℝ), (4 : ℝ)).1 ^ 2 + ((3 : ℝ), (4 : ℝ)).2 ^ 2 = 5 ^ 2 by norm_num]
  exact Real.sqrt_sq (by norm_num)

theorem forearm_entries_lmsU :
    UnityExporter.forearm_entries lmsU 640 480 =
      [⟨21, 192, 192, -(1 / 10)⟩, ⟨22, 96, 96, -(1 / 20)⟩,
       ⟨23, 48, 48, -(1 / 40)⟩, ⟨24, 144, 144, -(3 / 40)⟩] := by
  unfold UnityExporter.forearm_entries
  rw [avg_vec_lmsU, avg_magnitude_lmsU]
  norm_num [lmsU]
  rw [show |(4 : ℝ) / 3| = 4 / 3 from abs_of_nonneg (by norm_num)]
  norm_num [pyInt]

/-- C6 (amended): with a non-degenerate direction both synthesizers append
exactly four joints with ids 21, 22, 23, 24, and the exporter's id→name map
names them ELBOW, FOREARM_MID, FOREARM_QUARTER, FOREARM_THREE_QUARTER.  In
`unity_exporter.py` the depth offsets interpolate exactly at fractions 1/2,
1/4, 3/4 of the elbow's depth offset, and the pixel positions sit at those
fractions of the wrist-to-elbow offset only up to the `int(...)` truncation
(within 1 pixel for the midpoint, within 2 pixels for the quarter points).
In `real_hand_tracking.py` the four points lie at distances 0.8, 0.6, 0.4,
0.2 along the forearm direction, i.e. FOREARM_MID at fraction 3/4,
FOREARM_QUARTER at 1/2 and FOREARM_THREE_QUARTER at 1/4 of the
wrist-to-elbow offset — not at 1/2, 1/4, 3/4. -/
theorem forearm_points_structure :
    (∀ (lms : List UnityExporter.Lm) (imgW imgH : ℝ),
      0 < lms.length → 0 < (UnityExporter.ref_points lms).length →
      0 < UnityExporter.avg_magnitude lms →
      UnityExporter.add_forearm_landmarks lms imgW imgH =
        lms ++ UnityExporter.forearm_entries lms imgW imgH ∧
      (UnityExporter.forearm_entries lms imgW imgH).map UnityExporter.Lm.id =
        [21, 22, 23, 24] ∧
      (∀ a b c d : UnityExporter.Lm,
        UnityExporter.forearm_entries lms imgW imgH = [a, b, c, d] →
        (b.z - (lms.headD ⟨0, 0, 0, 0⟩).z = (a.z - (lms.headD ⟨0, 0, 0, 0⟩).z) / 2 ∧
         c.z - (lms.headD ⟨0, 0, 0, 0⟩).z =
           (a.z - (lms.headD ⟨0, 0, 0, 0⟩).z) * (25 / 100) ∧
         d.z - (lms.headD ⟨0, 0, 0, 0⟩).z =
           (a.z - (lms.headD ⟨0, 0, 0, 0⟩).z) * (75 / 100)) ∧
        |b.x - ((lms.headD ⟨0, 0, 0, 0⟩).x +
          (a.x - (lms.headD ⟨0, 0, 0, 0⟩).x) / 2)| < 1 ∧
        |b.y - ((lms.headD ⟨0, 0, 0, 0⟩).y +
          (a.y - (lms.headD ⟨0, 0, 0, 0⟩).y) / 2)| < 1 ∧
        |c.x - ((lms.headD ⟨0, 0, 0, 0⟩).x +
          (a.x - (lms.headD ⟨0, 0, 0, 0⟩).x) * (25 / 100))| < 2 ∧
        |c.y - ((lms.headD ⟨0, 0, 0, 0⟩).y +
          (a.y - (lms.headD ⟨0, 0, 0, 0⟩).y) * (25 / 100))| < 2 ∧
        |d.x - ((lms.headD ⟨0, 0, 0, 0⟩).x +
          (a.x - (lms.headD ⟨0, 0, 0, 0⟩).x) * (75 / 100))| < 2 ∧
        |d.y - ((lms.headD ⟨0, 0, 0, 0⟩).y +
          (a.y - (lms.headD ⟨0, 0, 0, 0⟩).y) * (75 / 100))| < 2)) ∧
    (UnityExporter.landmark_name 21 = "ELBOW" ∧
     UnityExporter.landmark_name 22 = "FOREARM_MID" ∧
     UnityExporter.landmark_name 23 = "FOREARM_QUARTER" ∧
     UnityExporter.landmark_name 24 = "FOREARM_THREE_QUARTER") ∧
    (∀ (lms : List RealHandTracking.Joint) (w0 w9 : RealHandTracking.Joint),
      lms.get? 0 = some w0 → lms.get? 9 = some w9 →
      ∃ p : Vec3,
        RealHandTracking.add_forearm lms =
          lms ++
            [⟨21, "ELBOW", p⟩,
             ⟨22, "FOREARM_MID", add3 w0.pos (scale3 (3 / 4) (sub3 p w0.pos))⟩,
             ⟨23, "FOREARM_QUARTER", add3 w0.pos (scale3 (1 / 2) (sub3 p w0.pos))⟩,
             ⟨24, "FOREARM_THREE_QUARTER",
               add3 w0.pos (scale3 (1 / 4) (sub3 p w0.pos))⟩]) := by
  refine ⟨?_, ⟨rfl, rfl, rfl, rfl⟩, ?_⟩
  · intro lms imgW imgH h1 h2 h3
    refine ⟨?_, ?_, ?_⟩
    · unfold UnityExporter.add_forearm_landmarks
      rw [if_pos h1, if_pos h2, if_pos h3]
    · simp [UnityExporter.forearm_entries]
    · intro a b c d h
      simp only [UnityExporter.forearm_entries, List.cons.injEq, and_true] at h
      obtain ⟨rfl, rfl, rfl, rfl⟩ := h
      refine ⟨⟨by ring, by ring, by ring⟩, ?_, ?_, ?_, ?_, ?_, ?_⟩
      · exact pyInt_mid_bound _ _
      · exact pyInt_mid_bound _ _
      · exact pyInt_frac_bound _ _ _ (by norm_num) (by norm_num)
      · exact pyInt_frac_bound _ _ _ (by norm_num) (by norm_num)
      · exact pyInt_frac_bound _ _ _ (by norm_num) (by norm_num)
      · exact pyInt_frac_bound _ _ _ (by norm_num) (by norm_num)
  · intro lms w0 w9 h0 h9
    rw [add_forearm_eq lms w0 w9 h0 h9]
    refine ⟨add3 w0.pos (scale3 (8 / 10) (neg3
      (if 0 < mag3 (sub3 w9.pos w0.pos) then
        ((sub3 w9.pos w0.pos).1 / mag3 (sub3 w9.pos w0.pos),
         (sub3 w9.pos w0.pos).2.1 / mag3 (sub3 w9.pos w0.pos),
         (sub3 w9.pos w0.pos).2.2 / mag3 (sub3 w9.pos w0.pos))
        else sub3 w9.pos w0.pos))), ?_⟩
    congr 1
    simp only [List.cons.injEq, RealHandTracking.Joint.mk.injEq, true_and, and_true]
    refine ⟨?_, ?_, ?_⟩
    all_goals
      simp only [add3, scale3, sub3, neg3, Prod.mk.injEq]
      refine ⟨by ring, by ring, by ring⟩

/-- A ten-entry tracking frame with the wrist at the origin and the middle
MCP one unit above it, giving forearm direction `(0,-1,0)`. -/
noncomputable def lmsRht : List RealHandTracking.Joint :=
  [⟨0, "WRIST", (0, 0, 0)⟩, ⟨1, "", (0, 0, 0)⟩, ⟨2, "", (0, 0, 0)⟩,
   ⟨3, "", (0, 0, 0)⟩, ⟨4, "", (0, 0, 0)⟩, ⟨5, "", (0, 0, 0)⟩,
   ⟨6, "", (0, 0, 0)⟩, ⟨7, "", (0, 0, 0)⟩, ⟨8, "", (0, 0, 0)⟩,
   ⟨9, "MIDDLE_FINGER_MCP", (0, 1, 0)⟩]

/-- C6 witness: on the concrete exporter frame `lmsU` the synthesizer
appends the four ids 21-24, with the depth midpoint exactly halfway and the
pixel midpoint within one pixel of halfway; on the concrete tracking frame
`lmsRht` the four joints are appended with FOREARM_MID at fraction 3/4 of
the wrist-to-elbow offset. -/
theorem forearm_points_structure_witness :
    UnityExporter.add_forearm_landmarks lmsU 640 480 =
      lmsU ++ UnityExporter.forearm_entries lmsU 640 480 ∧
    (UnityExporter.forearm_entries lmsU 640 480).map UnityExporter.Lm.id =
      [21, 22, 23, 24] ∧
    ((-(1 / 20) : ℝ) - 0 = ((-(1 / 10) : ℝ) - 0) / 2) ∧
    (|(96 : ℝ) - (0 + ((192 : ℝ) - 0) / 2)| < 1) ∧
    (∃ p : Vec3,
      RealHandTracking.add_forearm lmsRht =
        lmsRht ++
          [⟨21, "ELBOW", p⟩,
           ⟨22, "FOREARM_MID", add3 (0, 0, 0) (scale3 (3 / 4) (sub3 p (0, 0, 0)))⟩,
           ⟨23, "FOREARM_QUARTER", add3 (0, 0, 0) (scale3 (1 / 2) (sub3 p (0, 0, 0)))⟩,
           ⟨24, "FOREARM_THREE_QUARTER",
             add3 (0, 0, 0) (scale3 (1 / 4) (sub3 p (0, 0, 0)))⟩]) := by
  have h1 : 0 < lmsU.length := by norm_num [lmsU]
  have h2 : 0 < (UnityExporter.ref_points lmsU).length := by
    have he : UnityExporter.ref_points lmsU = [⟨9, -3, -4, 0⟩] := rfl
    rw [he]
    norm_num
  have h3 : 0 < UnityExporter.avg_magnitude lmsU := by
    rw [avg_magnitude_lmsU]
    norm_num
  obtain ⟨ha, hb, hc⟩ := forearm_points_structure.1 lmsU 640 480 h1 h2 h3
  have hd := hc _ _ _ _ forearm_entries_lmsU
  refine ⟨ha, hb, hd.1.1, hd.2.1, ?_⟩
  exact forearm_points_structure.2.2 lmsRht ⟨0, "WRIST", (0, 0, 0)⟩
    ⟨9, "MIDDLE_FINGER_MCP", (0, 1, 0)⟩ rfl rfl

/-- C6 counterexample: on `lmsRht` the tracking script's FOREARM_MID lands
at `(0,-0.6,0)`, which is not the fraction-1/2 point `(0,-0.4,0)` of the
wrist-to-elbow offset claimed by the spec — the distances 0.8/0.6/0.4/0.2
place it at fraction 3/4 instead. -/
theorem forearm_mid_fraction_not_half :
    RealHandTracking.add_forearm lmsRht =
      lmsRht ++
        [⟨21, "ELBOW", (0, -(8 / 10), 0)⟩, ⟨22, "FOREARM_MID", (0, -(6 / 10), 0)⟩,
         ⟨23, "FOREARM_QUARTER", (0, -(4 / 10), 0)⟩,
         ⟨24, "FOREARM_THREE_QUARTER", (0, -(2 / 10), 0)⟩] ∧
    ((0 : ℝ), -(6 / 10 : ℝ), (0 : ℝ)) ≠
      add3 (0, 0, 0) (scale3 (1 / 2) (sub3 (0, -(8 / 10), 0) (0, 0, 0))) := by
  constructor
  · rw [add_forearm_eq lmsRht ⟨0, "WRIST", (0, 0, 0)⟩
      ⟨9, "MIDDLE_FINGER_MCP", (0, 1, 0)⟩ rfl rfl]
    dsimp only
    rw [show sub3 ((0 : ℝ), (1 : ℝ), (0 : ℝ)) ((0 : ℝ), (0 : ℝ), (0 : ℝ)) =
      ((0 : ℝ), (1 : ℝ), (0 : ℝ)) from by norm_num [sub3]]
    have hmagv : mag3 ((0 : ℝ), (1 : ℝ), (0 : ℝ)) = 1 := by
      unfold mag3
      norm_num
    rw [hmagv, if_pos (by norm_num : (0 : ℝ) < 1)]
    norm_num [add3, scale3, neg3]
  · norm_num [add3, scale3, sub3, Prod.ext_iff]

/-- C10 witness: on the concrete frame `lmsU` the first two output entries
are the input, and a concrete appended entry carries a forearm id. -/
theorem add_forearm_landmarks_append_only_witness :
    (UnityExporter.add_forearm_landmarks lmsU 640 480).take lmsU.length = lmsU ∧
    ((⟨21, 192, 192, -(1 / 10)⟩ : UnityExporter.Lm).id = 21 ∨
     (⟨21, 192, 192, -(1 / 10)⟩ : UnityExporter.Lm).id = 22 ∨
     (⟨21, 192, 192, -(1 / 10)⟩ : UnityExporter.Lm).id = 23 ∨
     (⟨21, 192, 192, -(1 / 10)⟩ : UnityExporter.Lm).id = 24) := by
  refine ⟨(add_forearm_landmarks_append_only lmsU 640 480).1, ?_⟩
  apply (add_forearm_landmarks_append_only lmsU 640 480).2
  have h1 : 0 < lmsU.length := by norm_num [lmsU]
  have h2 : 0 < (UnityExporter.ref_points lmsU).length := by
    have he : UnityExporter.ref_points lmsU = [⟨9, -3, -4, 0⟩] := rfl
    rw [he]
    norm_num
  have h3 : 0 < UnityExporter.avg_magnitude lmsU := by
    rw [avg_magnitude_lmsU]
    norm_num
  have heq : UnityExporter.add_forearm_landmarks lmsU 640 480 =
      lmsU ++ UnityExporter.forearm_entries lmsU 640 480 := by
    unfold UnityExporter.add_forearm_landmarks
    rw [if_pos h1, if_pos h2, if_pos h3]
  rw [heq, List.drop_left, forearm_entries_lmsU]
  simp
